import Mathlib

/-!
Shallow embedding of the `posts` application request handlers of the
yatube blogging platform (`src/yatube/posts/views.py`), together with the
data model and form validators they use.  The database is a record of
lists of rows; each handler is a pure function from the database, the
authenticated requesting user and the (optional) bound form data to a new
database and a response.  The `@login_required` decorator is embedded by
giving each protected handler the requesting `User` as an argument: all
claims below quantify over authenticated users only.

Row types mirror the five entities of the data model.  The model and form
classes themselves (`models.py`, `forms.py`) are not part of the provided
sources; they are modelled from the spec where marked.
-/

namespace Yatube

structure User where
  id : Nat
  username : String
deriving DecidableEq, Repr

structure Group where
  id : Nat
  slug : String
deriving DecidableEq, Repr

structure Post where
  id : Nat
  authorId : Nat
  text : String
  groupId : Option Nat
  image : Option String
  pubDate : Nat
deriving DecidableEq, Repr

structure Comment where
  id : Nat
  postId : Nat
  authorId : Nat
  text : String
deriving DecidableEq, Repr

structure Follow where
  userId : Nat
  authorId : Nat
deriving DecidableEq, Repr

/-- The relational store: one list of rows per entity, plus the
auto-increment counters for the primary keys handlers create, and the
current clock used for the `pub_date` auto-timestamp. -/
structure DB where
  users : List User
  groups : List Group
  posts : List Post
  comments : List Comment
  follows : List Follow
  nextPostId : Nat
  nextCommentId : Nat
  now : Nat
deriving DecidableEq, Repr

/-- Modelled from the spec: `PostForm` (`forms.py`, not under the provided
sources) binds the submitted fields, text required, group optional, image
optional (spec section 4.3). -/
structure PostFormData where
  text : String
  groupId : Option Nat
  image : Option String
deriving DecidableEq, Repr

/-- Modelled from the spec: `CommentForm` binds the submitted comment
text, which is required (spec sections 2 and 4.4). -/
structure CommentFormData where
  text : String
deriving DecidableEq, Repr

/-- Modelled from the spec: a bound `PostForm` is valid exactly when the
required text field is nonempty; group and image are optional. -/
def PostFormData.isValid (d : PostFormData) : Bool :=
  d.text != ""

/-- An absent body (`request.POST or None` gives `None`, e.g. on GET)
leaves the form unbound, and an unbound form is never valid. -/
def postFormIsValid : Option PostFormData → Bool
  | none => false
  | some d => d.isValid

/-- Modelled from the spec: a bound `CommentForm` is valid exactly when
the required text field is nonempty. -/
def CommentFormData.isValid (d : CommentFormData) : Bool :=
  d.text != ""

def commentFormIsValid : Option CommentFormData → Bool
  | none => false
  | some d => d.isValid

/-- The form held by the rendered context of `create_post.html`: either a
fresh unbound form (which displays no field errors) or a form bound to
submitted data (which displays the field errors of that data). -/
inductive FormState where
  | unbound : FormState
  | bound : PostFormData → FormState
deriving DecidableEq, Repr

/-- A handler response: a rendered page or a redirect.  `renderCreate`
is a render of `posts/create_post.html` carrying the context form;
`notFound` is the standard not-found response of `get_object_or_404`. -/
inductive Response where
  | renderCreate : FormState → Response
  | redirectProfile : String → Response
  | redirectPostDetail : Nat → Response
  | notFound : Response
deriving DecidableEq, Repr

/-- Looks up the username of the user with the given primary key, as the
`author__username` join of the unfollow filter does. -/
def userUsername (db : DB) (uid : Nat) : Option String :=
  (db.users.find? (fun u => u.id == uid)).map (fun u => u.username)

/-- `Paginator(list, per_page)` followed by `get_page(page_number)`
(views.py lines 12-14 and the like).  `get_page` clamps: a missing or
non-integer page number becomes page 1, a page number out of range
becomes the last page; the number of pages is at least 1. -/
def getPage (l : List Post) (perPage : Nat) (page : Option Nat) : List Post :=
  let numPages := max 1 ((l.length + perPage - 1) / perPage)
  let p := match page with
    | none => 1
    | some q => if q < 1 ∨ numPages < q then numPages else q
  (l.drop (perPage * (p - 1))).take perPage

/-- Posts filtered by group (`group.posts.all()`, views.py line 24). -/
def postsOfGroup (db : DB) (gid : Nat) : List Post :=
  db.posts.filter (fun p => p.groupId == some gid)

/-- Posts filtered by author (`author.posts...`, views.py line 38). -/
def postsOfAuthor (db : DB) (aid : Nat) : List Post :=
  db.posts.filter (fun p => p.authorId == aid)

/-- Posts whose author the given user follows
(`filter(author__following__user=request.user)`, views.py lines 120-121). -/
def feedPosts (db : DB) (user : User) : List Post :=
  db.posts.filter (fun p =>
    db.follows.any (fun f => f.userId == user.id && f.authorId == p.authorId))

/-- `index` (views.py lines 9-18): all posts, paginated by 10.  The
embedded handler returns the `page_obj` item list of the rendered
context. -/
def index (db : DB) (page : Option Nat) : List Post :=
  getPage db.posts 10 page

/-- `group_posts` (views.py lines 21-32): 404 when the slug names no
group, otherwise the paginated posts of the group. -/
def group_posts (db : DB) (slug : String) (page : Option Nat) : Option (List Post) :=
  (db.groups.find? (fun g => g.slug == slug)).map
    (fun g => getPage (postsOfGroup db g.id) 10 page)

/-- `profile` (views.py lines 35-51): 404 when the username names no
user, otherwise the paginated posts of that author. -/
def profile (db : DB) (username : String) (page : Option Nat) : Option (List Post) :=
  (db.users.find? (fun u => u.username == username)).map
    (fun a => getPage (postsOfAuthor db a.id) 10 page)

/-- `follow_index` (views.py lines 117-128): the paginated posts of the
authors the requesting user follows. -/
def follow_index (db : DB) (user : User) (page : Option Nat) : List Post :=
  getPage (feedPosts db user) 10 page

/-- `post_create` (views.py lines 67-80).  On a valid bound form it saves
a new post with `author_id = request.user.id` and redirects to the
profile of the requesting user.  Otherwise it renders
`create_post.html`; note line 79 replaces the bound form with a fresh
`PostForm()` before rendering, so the rendered form is always unbound. -/
def post_create (db : DB) (user : User) (fd : Option PostFormData) : DB × Response :=
  match fd with
  | some d =>
    if d.isValid then
      ({db with
          posts := db.posts ++ [{ id := db.nextPostId, authorId := user.id,
                                  text := d.text, groupId := d.groupId,
                                  image := d.image, pubDate := db.now }],
          nextPostId := db.nextPostId + 1},
       Response.redirectProfile user.username)
    else
      (db, Response.renderCreate FormState.unbound)
  | none => (db, Response.renderCreate FormState.unbound)

/-- `post_edit` (views.py lines 83-101).  404 when the id names no post;
a requester other than the author is redirected to the post detail page
with no change; the author gets the form bound to the existing instance:
valid data is saved (updating the bound fields of the stored row, keeping
the rest) and redirects to detail, invalid data re-renders the bound form
in editing mode, an unbound form (GET) re-renders without saving. -/
def post_edit (db : DB) (user : User) (post_id : Nat) (fd : Option PostFormData) :
    DB × Response :=
  match db.posts.find? (fun q => q.id == post_id) with
  | none => (db, Response.notFound)
  | some object_post =>
    if object_post.authorId == user.id then
      match fd with
      | some d =>
        if d.isValid then
          ({db with posts := db.posts.map (fun q =>
              if q.id == post_id then
                { q with text := d.text, groupId := d.groupId, image := d.image }
              else q)},
           Response.redirectPostDetail post_id)
        else
          (db, Response.renderCreate (FormState.bound d))
      | none => (db, Response.renderCreate FormState.unbound)
    else
      (db, Response.redirectPostDetail post_id)

/-- `add_comment` (views.py lines 104-114).  404 when the id names no
post; otherwise a valid bound form saves a comment whose post is the
fetched post and whose author is the requesting user, and in every case
the handler redirects to the post detail page. -/
def add_comment (db : DB) (user : User) (post_id : Nat) (fd : Option CommentFormData) :
    DB × Response :=
  match db.posts.find? (fun q => q.id == post_id) with
  | none => (db, Response.notFound)
  | some post =>
    match fd with
    | some d =>
      if d.isValid then
        ({db with
            comments := db.comments ++ [{ id := db.nextCommentId, postId := post.id,
                                          authorId := user.id, text := d.text }],
            nextCommentId := db.nextCommentId + 1},
         Response.redirectPostDetail post_id)
      else (db, Response.redirectPostDetail post_id)
    | none => (db, Response.redirectPostDetail post_id)

/-- `profile_follow` (views.py lines 131-138).  404 when the username
names no user.  The guard `follower != following and follower !=
following.follower` reduces to the first conjunct: the second compares a
`User` instance with a related manager object, which is never equal, and
`User` equality is primary-key equality.  `get_or_create` adds a row only
when no (user, author) row exists. -/
def profile_follow (db : DB) (follower : User) (username : String) : DB × Response :=
  match db.users.find? (fun u => u.username == username) with
  | none => (db, Response.notFound)
  | some following =>
    if follower.id == following.id then
      (db, Response.redirectProfile username)
    else if db.follows.any (fun f => f.userId == follower.id && f.authorId == following.id) then
      (db, Response.redirectProfile username)
    else
      ({db with follows := db.follows ++ [{ userId := follower.id, authorId := following.id }]},
       Response.redirectProfile username)

/-- `profile_unfollow` (views.py lines 141-148).  No user lookup at all:
it deletes every `Follow` row matching `user=request.user,
author__username=username` and redirects to the profile URL of the given
username. -/
def profile_unfollow (db : DB) (user : User) (username : String) : DB × Response :=
  ({db with follows := db.follows.filter (fun f =>
      !(f.userId == user.id && userUsername db f.authorId == some username))},
   Response.redirectProfile username)

/-- The number of Follow rows for a given (follower, followee) pair. -/
def followCount (db : DB) (uid aid : Nat) : Nat :=
  (db.follows.filter (fun f => f.userId == uid && f.authorId == aid)).length

/-! Concrete fixtures used by the witnesses. -/

def alice : User := { id := 1, username := "alice" }

def bob : User := { id := 2, username := "bob" }

def g1 : Group := { id := 1, slug := "g" }

def post1 : Post :=
  { id := 1, authorId := 1, text := "t", groupId := none, image := none, pubDate := 0 }

def db0 : DB :=
  { users := [alice, bob], groups := [g1], posts := [post1], comments := [],
    follows := [], nextPostId := 2, nextCommentId := 1, now := 5 }

def d4 : PostFormData := { text := "edited", groupId := some 1, image := none }

def emptySubmission : PostFormData := { text := "", groupId := none, image := none }

def commentHi : CommentFormData := { text := "hi" }

/-! Theorems, one per claim. -/

/-- C1: the code at the failing input.  An authenticated user submits the
post-creation form with data failing validation (empty required text).
The handler issues no redirect and persists no new Post, but it renders a
fresh unbound form (`form = PostForm()`, views.py line 79) rather than
the bound form, so no field-level validation errors for the submitted
data are shown. -/
theorem post_create_invalid_renders_blank_form :
    post_create db0 alice (some emptySubmission) =
      (db0, Response.renderCreate FormState.unbound) ∧
    FormState.unbound ≠ FormState.bound emptySubmission := by
  exact ⟨rfl, by decide⟩

/-- C2: for every authenticated user commenting on an existing post, the
handler redirects to the post detail page regardless of validation; valid
text appends exactly one Comment with the target post and requesting
author; invalid or absent text leaves the database unchanged. -/
theorem add_comment_spec (db : DB) (user : User) (pid : Nat)
    (fd : Option CommentFormData) (post : Post)
    (hp : db.posts.find? (fun q => q.id == pid) = some post) :
    (add_comment db user pid fd).2 = Response.redirectPostDetail pid ∧
    (∀ d, fd = some d → d.isValid = true →
      (add_comment db user pid fd).1.comments =
        db.comments ++ [{ id := db.nextCommentId, postId := post.id,
                          authorId := user.id, text := d.text }]) ∧
    (commentFormIsValid fd = false → (add_comment db user pid fd).1 = db) := by
  unfold add_comment
  rw [hp]
  match fd with
  | none =>
    refine ⟨rfl, ?_, fun _ => rfl⟩
    intro d hd
    cases hd
  | some d =>
    by_cases hv : d.isValid = true
    · refine ⟨by simp [hv], ?_, ?_⟩
      · intro d2 hd2 _
        cases hd2
        simp [hv]
      · intro hfalse
        simp [commentFormIsValid, hv] at hfalse
    · have hv2 : d.isValid = false := by
        cases h : d.isValid
        · rfl
        · exact absurd h hv
      refine ⟨by simp [hv2], ?_, fun _ => by simp [hv2]⟩
      intro d2 hd2 hvd2
      cases hd2
      exact absurd hvd2 hv

theorem add_comment_spec_witness :
    (add_comment db0 bob 1 (some commentHi)).2 = Response.redirectPostDetail 1 :=
  (add_comment_spec db0 bob 1 (some commentHi) post1 (by decide)).1

/-- C3: a request by an authenticated non-author to the edit route of an
existing post returns a plain redirect to the post detail page (no
distinct error status) and leaves the whole database unchanged. -/
theorem post_edit_nonauthor (db : DB) (user : User) (pid : Nat)
    (fd : Option PostFormData) (object_post : Post)
    (hp : db.posts.find? (fun q => q.id == pid) = some object_post)
    (hne : object_post.authorId ≠ user.id) :
    post_edit db user pid fd = (db, Response.redirectPostDetail pid) := by
  unfold post_edit
  rw [hp]
  simp [hne]

theorem post_edit_nonauthor_witness :
    post_edit db0 bob 1 none = (db0, Response.redirectPostDetail 1) :=
  post_edit_nonauthor db0 bob 1 none post1 (by decide) (by decide)

/-- C4: an author editing an own existing post with a valid submission is
redirected to the post detail page, the stored row with that id takes the
submitted text, group and image while keeping its id, author and
publication date, every other post row is untouched, and the remaining
tables are unchanged. -/
theorem post_edit_author_valid (db : DB) (user : User) (pid : Nat) (d : PostFormData)
    (object_post : Post)
    (hp : db.posts.find? (fun q => q.id == pid) = some object_post)
    (ha : object_post.authorId = user.id)
    (hv : d.isValid = true) :
    (post_edit db user pid (some d)).2 = Response.redirectPostDetail pid ∧
    (post_edit db user pid (some d)).1.posts = db.posts.map (fun q =>
      if q.id == pid then
        { id := q.id, authorId := q.authorId, text := d.text,
          groupId := d.groupId, image := d.image, pubDate := q.pubDate }
      else q) ∧
    (post_edit db user pid (some d)).1.users = db.users ∧
    (post_edit db user pid (some d)).1.comments = db.comments ∧
    (post_edit db user pid (some d)).1.follows = db.follows := by
  unfold post_edit
  rw [hp]
  simp [ha, hv]

theorem post_edit_author_valid_witness :
    (post_edit db0 alice 1 (some d4)).1.posts =
      [{ id := 1, authorId := 1, text := d4.text, groupId := d4.groupId,
         image := d4.image, pubDate := 0 }] := by
  have h := (post_edit_author_valid db0 alice 1 d4 post1 (by decide) (by decide)
    (by decide)).2.1
  rw [h]
  decide

/-- C6: an authenticated user submitting valid post-creation data gets a
redirect to the own profile, and exactly one new Post authored by that
user is appended, so the post count rises by exactly one. -/
theorem post_create_valid (db : DB) (user : User) (d : PostFormData)
    (hv : d.isValid = true) :
    (post_create db user (some d)).2 = Response.redirectProfile user.username ∧
    (post_create db user (some d)).1.posts =
      db.posts ++ [{ id := db.nextPostId, authorId := user.id, text := d.text,
                     groupId := d.groupId, image := d.image, pubDate := db.now }] ∧
    (post_create db user (some d)).1.posts.length = db.posts.length + 1 := by
  unfold post_create
  simp [hv]

theorem post_create_valid_witness :
    (post_create db0 alice (some d4)).1.posts.length = db0.posts.length + 1 :=
  (post_create_valid db0 alice d4 (by decide)).2.2

/-- C10: a GET request (no form data, hence an unbound and invalid form)
to the creation route, or to the edit route of an own post, changes
nothing: both handlers only render the form page. -/
theorem get_request_no_mutation (db : DB) (user : User) (pid : Nat)
    (object_post : Post)
    (hp : db.posts.find? (fun q => q.id == pid) = some object_post)
    (ha : object_post.authorId = user.id) :
    post_create db user none = (db, Response.renderCreate FormState.unbound) ∧
    post_edit db user pid none = (db, Response.renderCreate FormState.unbound) := by
  refine ⟨rfl, ?_⟩
  unfold post_edit
  rw [hp]
  simp [ha]

theorem get_request_no_mutation_witness :
    post_edit db0 alice 1 none = (db0, Response.renderCreate FormState.unbound) :=
  (get_request_no_mutation db0 alice 1 post1 (by decide) (by decide)).2

/-- A requested page number within range is not clamped, and the page it
selects holds exactly `min perPage (length - perPage * (p - 1))` items
(here with the page size 10 the handlers use). -/
theorem getPage_length (l : List Post) (p : Nat) (hp : 1 ≤ p)
    (h : 10 * (p - 1) < l.length) :
    (getPage l 10 (some p)).length = min 10 (l.length - 10 * (p - 1)) := by
  have hnp : ¬(p < 1 ∨ max 1 ((l.length + 10 - 1) / 10) < p) := by omega
  unfold getPage
  simp only [if_neg hnp, List.length_take, List.length_drop]

/-- Thirteen posts fixture: all by alice, all in group g1. -/
def posts13 : List Post :=
  (List.range 13).map (fun i =>
    { id := i + 1, authorId := 1, text := "p", groupId := some 1,
      image := none, pubDate := 0 })

def db13 : DB :=
  { users := [alice], groups := [g1], posts := posts13, comments := [],
    follows := [], nextPostId := 14, nextCommentId := 1, now := 0 }

/-- C5: every listing route (index, group listing, profile, follow feed)
paginates its filtered post sequence with page size 10: page p holds
exactly min 10 (n - 10 * (p - 1)) items whenever that quantity is
positive. -/
theorem listing_page_size (db : DB) (slug username : String) (user : User) (p : Nat)
    (hp : 1 ≤ p) :
    (10 * (p - 1) < db.posts.length →
      (index db (some p)).length = min 10 (db.posts.length - 10 * (p - 1))) ∧
    (∀ g, db.groups.find? (fun x => x.slug == slug) = some g →
      10 * (p - 1) < (postsOfGroup db g.id).length →
      group_posts db slug (some p) = some (getPage (postsOfGroup db g.id) 10 (some p)) ∧
      (getPage (postsOfGroup db g.id) 10 (some p)).length =
        min 10 ((postsOfGroup db g.id).length - 10 * (p - 1))) ∧
    (∀ a, db.users.find? (fun u => u.username == username) = some a →
      10 * (p - 1) < (postsOfAuthor db a.id).length →
      profile db username (some p) = some (getPage (postsOfAuthor db a.id) 10 (some p)) ∧
      (getPage (postsOfAuthor db a.id) 10 (some p)).length =
        min 10 ((postsOfAuthor db a.id).length - 10 * (p - 1))) ∧
    (10 * (p - 1) < (feedPosts db user).length →
      (follow_index db user (some p)).length =
        min 10 ((feedPosts db user).length - 10 * (p - 1))) := by
  refine ⟨?_, ?_, ?_, ?_⟩
  · intro h
    exact getPage_length db.posts p hp h
  · intro g hg h
    refine ⟨?_, getPage_length _ p hp h⟩
    unfold group_posts
    rw [hg]
    rfl
  · intro a ha h
    refine ⟨?_, getPage_length _ p hp h⟩
    unfold profile
    rw [ha]
    rfl
  · intro h
    exact getPage_length _ p hp h

theorem listing_page_size_witness :
    (index db13 (some 1)).length = 10 ∧ (index db13 (some 2)).length = 3 := by
  constructor
  · have h := (listing_page_size db13 g1.slug alice.username alice 1 (by decide)).1
      (by decide)
    rw [h]
    decide
  · have h := (listing_page_size db13 g1.slug alice.username alice 2 (by decide)).1
      (by decide)
    rw [h]
    decide

/-- C7: the follow handler of an existing target redirects to the target
profile in every case, creates no row when the requester is the target,
keeps the row count of the (requester, target) pair at most max 1 of its
prior value, and a repeated request changes nothing further. -/
theorem profile_follow_spec (db : DB) (follower following : User) (username : String)
    (ht : db.users.find? (fun u => u.username == username) = some following) :
    (profile_follow db follower username).2 = Response.redirectProfile username ∧
    (follower.id = following.id → (profile_follow db follower username).1 = db) ∧
    followCount (profile_follow db follower username).1 follower.id following.id ≤
      max 1 (followCount db follower.id following.id) ∧
    (profile_follow (profile_follow db follower username).1 follower username).1 =
      (profile_follow db follower username).1 := by
  by_cases hid : (follower.id == following.id) = true
  · have heq : profile_follow db follower username =
        (db, Response.redirectProfile username) := by
      unfold profile_follow
      rw [ht]
      simp [hid]
    rw [heq]
    exact ⟨rfl, fun _ => rfl, le_max_right _ _, by rw [heq]⟩
  · by_cases hany :
        (db.follows.any (fun f => f.userId == follower.id && f.authorId == following.id))
          = true
    · have heq : profile_follow db follower username =
          (db, Response.redirectProfile username) := by
        unfold profile_follow
        rw [ht]
        simp [hid, hany]
      rw [heq]
      exact ⟨rfl, fun _ => rfl, le_max_right _ _, by rw [heq]⟩
    · have heq : profile_follow db follower username =
          ({db with follows :=
              db.follows ++ [{ userId := follower.id, authorId := following.id }]},
           Response.redirectProfile username) := by
        unfold profile_follow
        rw [ht]
        simp [hid, hany]
      have hnil :
          db.follows.filter
            (fun f => f.userId == follower.id && f.authorId == following.id) = [] := by
        rw [List.filter_eq_nil_iff]
        intro f hf
        have := List.any_eq_false.mp (Bool.of_not_eq_true hany) f hf
        simpa using this
      rw [heq]
      refine ⟨rfl, ?_, ?_, ?_⟩
      · intro h
        exact absurd (by simp [h]) hid
      · unfold followCount
        simp only [List.filter_append, hnil]
        simp
      · have ht1 : (({db with follows :=
            db.follows ++ [{ userId := follower.id, authorId := following.id }]} : DB)).users.find?
              (fun u => u.username == username) = some following := ht
        have heq2 : profile_follow
            ({db with follows :=
                db.follows ++ [{ userId := follower.id, authorId := following.id }]})
            follower username =
            ({db with follows :=
                db.follows ++ [{ userId := follower.id, authorId := following.id }]},
             Response.redirectProfile username) := by
          unfold profile_follow
          rw [ht1]
          simp [hid]
        rw [heq2]

theorem profile_follow_spec_witness :
    (profile_follow db0 bob alice.username).2 = Response.redirectProfile alice.username :=
  (profile_follow_spec db0 bob alice alice.username (by decide)).1

def carolName : String := "carol"

/-- C9: the unfollow handler never returns a not-found response: it
always redirects to the profile URL of the given username, and when the
username names no user it deletes nothing; the follow handler, by
contrast, answers not-found for the same unknown username. -/
theorem profile_unfollow_no_user (db : DB) (user : User) (username : String)
    (hnone : db.users.find? (fun u => u.username == username) = none) :
    (∀ db2 : DB, ∀ u2 : User, ∀ s : String,
      (profile_unfollow db2 u2 s).2 = Response.redirectProfile s) ∧
    profile_unfollow db user username = (db, Response.redirectProfile username) ∧
    profile_follow db user username = (db, Response.notFound) := by
  refine ⟨fun _ _ _ => rfl, ?_, ?_⟩
  · unfold profile_unfollow
    have hkeep : ∀ f ∈ db.follows,
        (!(f.userId == user.id && userUsername db f.authorId == some username)) = true := by
      intro f hf
      have hne2 : userUsername db f.authorId ≠ some username := by
        intro hsome
        unfold userUsername at hsome
        rcases Option.map_eq_some'.mp hsome with ⟨u, hu, huname⟩
        have hmem := List.mem_of_find?_eq_some hu
        have hfalse := List.find?_eq_none.mp hnone u hmem
        simp [huname] at hfalse
      have hb : (userUsername db f.authorId == some username) = false :=
        beq_eq_false_iff_ne.mpr hne2
      simp [hb]
    rw [List.filter_eq_self.mpr hkeep]
  · unfold profile_follow
    rw [hnone]

theorem profile_unfollow_no_user_witness :
    profile_follow db0 alice carolName = (db0, Response.notFound) :=
  (profile_unfollow_no_user db0 alice carolName (by decide)).2.2

/-- A user table with pairwise distinct ids and usernames.  The spec
declares usernames unique, and primary keys are unique by construction. -/
def usersWellFormed (l : List User) : Prop :=
  l.Pairwise (fun u v => u.id ≠ v.id ∧ u.username ≠ v.username)

/-- In a well-formed user table, lookup by the id of a member returns
that member. -/
theorem find_by_id_of_mem (l : List User) (t : User)
    (hwf : usersWellFormed l) (hm : t ∈ l) :
    l.find? (fun u => u.id == t.id) = some t := by
  induction l with
  | nil => cases hm
  | cons x xs ih =>
    rcases List.mem_cons.mp hm with h | h
    · subst h
      exact List.find?_cons_of_pos _ (by simp)
    · have hx : x.id ≠ t.id := ((List.pairwise_cons.mp hwf).1 t h).1
      rw [List.find?_cons_of_neg _ (by simpa using hx)]
      exact ih (List.pairwise_cons.mp hwf).2 h

/-- In a well-formed user table, two members sharing a username are the
same row. -/
theorem username_injective (l : List User) (u t : User)
    (hwf : usersWellFormed l) (hu : u ∈ l) (ht : t ∈ l)
    (h : u.username = t.username) : u = t := by
  induction l with
  | nil => cases hu
  | cons x xs ih =>
    have hhead := (List.pairwise_cons.mp hwf).1
    have htail := (List.pairwise_cons.mp hwf).2
    rcases List.mem_cons.mp hu with h1 | h1 <;> rcases List.mem_cons.mp ht with h2 | h2
    · rw [h1, h2]
    · subst h1
      exact absurd h (hhead t h2).2
    · subst h2
      exact absurd h.symm (hhead u h1).2
    · exact ih htail h1 h2

/-- C8: for a well-formed user table, an existing target distinct from
the requester and not already followed, performing follow and then
unfollow restores the database exactly, and the final response is the
redirect to the target profile. -/
theorem follow_unfollow_roundtrip (db : DB) (follower target : User) (username : String)
    (hwf : usersWellFormed db.users)
    (ht : db.users.find? (fun u => u.username == username) = some target)
    (hne : follower.id ≠ target.id)
    (hnf : ∀ f ∈ db.follows, ¬(f.userId = follower.id ∧ f.authorId = target.id)) :
    (profile_unfollow (profile_follow db follower username).1 follower username).1 = db ∧
    (profile_unfollow (profile_follow db follower username).1 follower username).2 =
      Response.redirectProfile username := by
  have hmem : target ∈ db.users := List.mem_of_find?_eq_some ht
  have huser : target.username = username := by simpa using List.find?_some ht
  have hid : ¬((follower.id == target.id) = true) := by simpa using hne
  have hany : ¬((db.follows.any
      (fun f => f.userId == follower.id && f.authorId == target.id)) = true) := by
    intro hcontra
    rcases List.any_eq_true.mp hcontra with ⟨f, hf, hp⟩
    exact hnf f hf (by simpa using hp)
  have hfol : (profile_follow db follower username).1 =
      {db with follows := db.follows ++ [Follow.mk follower.id target.id]} := by
    have heq : profile_follow db follower username =
        ({db with follows := db.follows ++ [Follow.mk follower.id target.id]},
         Response.redirectProfile username) := by
      unfold profile_follow
      rw [ht]
      simp [hid, hany]
    rw [heq]
  refine ⟨?_, rfl⟩
  rw [hfol]
  have hshape : (profile_unfollow
      ({db with follows := db.follows ++ [Follow.mk follower.id target.id]})
      follower username).1 =
      {db with follows :=
        ((db.follows ++ [Follow.mk follower.id target.id]).filter
          (fun f =>
            !(f.userId == follower.id && userUsername db f.authorId == some username)))} :=
    rfl
  rw [hshape]
  have hkeepold : ∀ f ∈ db.follows,
      (!(f.userId == follower.id && userUsername db f.authorId == some username)) = true := by
    intro f hf
    by_cases hu : f.userId = follower.id
    · have hub : userUsername db f.authorId ≠ some username := by
        intro hsome
        unfold userUsername at hsome
        rcases Option.map_eq_some'.mp hsome with ⟨u, hfind, huname⟩
        have humem := List.mem_of_find?_eq_some hfind
        have huid : u.id = f.authorId := by simpa using List.find?_some hfind
        have huT : u = target :=
          username_injective db.users u target hwf humem hmem (huname.trans huser.symm)
        refine hnf f hf ⟨hu, ?_⟩
        rw [← huid, huT]
      have hb : (userUsername db f.authorId == some username) = false :=
        beq_eq_false_iff_ne.mpr hub
      simp [hb]
    · have hb : (f.userId == follower.id) = false := beq_eq_false_iff_ne.mpr hu
      simp [hb]
  have huuT : userUsername db target.id = some username := by
    unfold userUsername
    rw [find_by_id_of_mem db.users target hwf hmem]
    simp [huser]
  have hrow : ([Follow.mk follower.id target.id]).filter
      (fun f => !(f.userId == follower.id && userUsername db f.authorId == some username))
        = [] := by
    simp [List.filter_cons, huuT]
  rw [List.filter_append, List.filter_eq_self.mpr hkeepold, hrow, List.append_nil]

theorem follow_unfollow_roundtrip_witness :
    (profile_unfollow (profile_follow db0 bob alice.username).1 bob alice.username).1
      = db0 :=
  (follow_unfollow_roundtrip db0 bob alice alice.username
    (by unfold usersWellFormed; decide) (by decide)
    (by decide) (by intro f hf; simp [db0] at hf)).1

end Yatube
